import Mathlib

/-!
Shallow embedding of the checkout/order backend (`nothing-server-app`).

The embedding follows `src/controllers/checkout.controller.ts` and the share
controller.  External collaborators (mongoose, the Razorpay client, the zod
schemas, `ApiResponse`, node `crypto`, `encodeURIComponent`) live outside the
repository's `src/` tree; each is modelled at its interface boundary as an
explicit environment field, and the spots where only the spec documents the
behaviour are marked `Modelled from the spec:` in the doc comments.

Stateful behaviour is made explicit: the Mongo order collection is a
`List Order`, a checkout transaction is modelled by the fact that the new
order document is appended to that list only on the commit path and the list
is returned unchanged on every abort path.
-/

set_option autoImplicit false

namespace NothingServer

/-- `String.includes` of JavaScript: `needle` occurs as a contiguous substring
of `haystack` (case sensitive). -/
def containsSubstr (needle haystack : String) : Bool :=
  decide (List.IsInfix needle.data haystack.data)

/-- Modelled from the spec: the uniform response envelope
`\x7bsuccess: bool, message: string, data?: any\x7d` produced by the
`ApiResponse` helper (the helper class itself is not under `src/`).
`success` carries an optional data payload, `error` only a message. -/
inductive ApiResp (α : Type) where
  | success (message : String) (data : Option α)
  | error (message : String)
deriving DecidableEq

/-- Product document as stored in the catalog collection
(`ProductModel`; the mongoose schema is not under `src/`, fields are the ones
selected and used by the controllers: spec §3 *Product*). -/
structure DbProduct where
  id : String
  name : String
  price : Nat
  category : String
  inventory : Nat
  isActive : Bool
deriving DecidableEq

/-- The `Product` value returned by `validateAndFetchProduct`
(checkout.controller.ts lines 231-237).  The mongoose query selects only
`name price category inventory isActive`, so `productObj.description` is
`undefined`: modelled as `none`. -/
structure Product where
  id : String
  name : String
  description : Option String
  price : Nat
  category : String
deriving DecidableEq

/-- The descriptor returned by `razorpay.orders.create`
(spec §4.3: an `\x7bid, amount, currency, receipt\x7d` record). -/
structure RazorpayOrder where
  id : String
  amount : Nat
  currency : String
  receipt : String
deriving DecidableEq

/-- One `\x7bplatform, sharedAt\x7d` entry of an order's `socialShares` list
(share controller line 31); the timestamp is an abstract instant. -/
structure ShareEvent where
  platform : String
  sharedAt : Nat
deriving DecidableEq

/-- Order document (`OrderModel`).  Fields are exactly the ones written by
`createOrderRecord` (checkout.controller.ts lines 289-299) plus the
social-share fields mutated by the share controller.
Modelled from the spec (§3 *Order*): the share flag and share-event list of a
freshly created order are unset/empty, and the share step later sets the flag
and appends to the list. -/
structure Order where
  orderId : String
  productId : String
  productName : String
  productCategory : String
  customerEmail : String
  customerName : String
  amount : Nat
  status : String
  paymentStatus : String
  sharedOnSocial : Bool
  socialShares : List ShareEvent
deriving DecidableEq

/-- Outcome of the single `razorpay.orders.create` call of one checkout:
the external client may throw, may return a falsy value (no usable order),
or may return an order descriptor (spec §4.3: an unreliable external
dependency). -/
inductive GatewayOutcome where
  | throws
  | returnsNull
  | returns (o : RazorpayOrder)
deriving DecidableEq

/-- Environment of one `handleCheckout` invocation: the request body after
schema parsing, plus the behaviour of every external collaborator touched
during this request.
`schemaOk` is the verdict of `CheckoutSchema.safeParse` (the zod schema is
not under `src/`; spec §4.1: input validated against a schema before any side
effect).  `isValidObjectId` is `mongoose.Types.ObjectId.isValid`, `catalog`
is `ProductModel.findById`, `gateway` the Razorpay call outcome, and
`saveFails` whether `order.save(\x7bsession\x7d)` throws. -/
structure CheckoutEnv where
  schemaOk : Bool
  productId : String
  customerEmail : String
  customerName : String
  receipt : String
  isValidObjectId : String → Bool
  catalog : String → Option DbProduct
  gateway : GatewayOutcome
  saveFails : Bool

/-- `validateAndFetchProduct` (checkout.controller.ts lines 207-238):
reject a malformed id, then fetch the product; throwing is modelled as
`Except.error` carrying the thrown message. -/
def validateAndFetchProduct (isValidObjectId : String → Bool)
    (catalog : String → Option DbProduct) (productId : String) :
    Except String Product :=
  if !(isValidObjectId productId) then
    .error "Invalid product ID format"
  else
    match catalog productId with
    | none => .error "Product not found"
    | some p =>
      .ok { id := p.id, name := p.name, description := none,
            price := p.price, category := p.category }

/-- `createRazorpayOrder` (checkout.controller.ts lines 248-271): a throw
from the client is caught and re-thrown as `Failed to create payment order`;
otherwise the client's return value (possibly falsy, hence `Option`) is
passed through. -/
def createRazorpayOrder (gateway : GatewayOutcome) :
    Except String (Option RazorpayOrder) :=
  match gateway with
  | .throws => .error "Failed to create payment order"
  | .returnsNull => .ok none
  | .returns o => .ok (some o)

/-- The `new OrderModel(\x7b...\x7d)` document built by `createOrderRecord`
(checkout.controller.ts lines 289-299). -/
def newOrderDoc (product : Product)
    (customerEmail customerName razorpayOrderId : String) : Order :=
  { orderId := razorpayOrderId
    productId := product.id
    productName := product.name
    productCategory := product.category
    customerEmail := customerEmail
    customerName := customerName
    amount := product.price
    status := "confirmed"
    paymentStatus := "pending"
    sharedOnSocial := false
    socialShares := [] }

/-- `createOrderRecord` (checkout.controller.ts lines 281-309): build the
order document; a failing `order.save` is caught and re-thrown as
`Failed to create order record`. -/
def createOrderRecord (product : Product)
    (customerEmail customerName razorpayOrderId : String)
    (saveFails : Bool) : Except String Order :=
  let order := newOrderDoc product customerEmail customerName razorpayOrderId
  if saveFails then .error "Failed to create order record" else .ok order

/-- The catch branch of `handleCheckout` (lines 90-107): abort, then map the
thrown message by the two `includes` tests to a client-facing message. -/
def checkoutErrorResp (msg : String) : ApiResp RazorpayOrder :=
  if containsSubstr "Product" msg then
    .error msg
  else if containsSubstr "Razorpay" msg then
    .error "Payment service unavailable"
  else
    .error "Checkout process failed"

/-- Observable outcome of one `handleCheckout` invocation: the HTTP
response, the order collection after commit/abort, and whether the payment
gateway was invoked. -/
structure CheckoutOutcome where
  resp : ApiResp RazorpayOrder
  orders : List Order
  gatewayCalled : Bool

/-- `handleCheckout` (checkout.controller.ts lines 33-114) over an order
collection `os`.  The transaction is modelled by appending the new document
only on the commit path; every abort path returns `os` unchanged
(`session.endSession` in `finally` is pure resource cleanup with no
observable state). -/
def handleCheckout (env : CheckoutEnv) (os : List Order) : CheckoutOutcome :=
  if !env.schemaOk then
    { resp := .error "CheckOut validation failed", orders := os,
      gatewayCalled := false }
  else
    match validateAndFetchProduct env.isValidObjectId env.catalog env.productId with
    | .error m => { resp := checkoutErrorResp m, orders := os, gatewayCalled := false }
    | .ok product =>
      match createRazorpayOrder env.gateway with
      | .error m =>
        { resp := checkoutErrorResp m, orders := os, gatewayCalled := true }
      | .ok none =>
        { resp := checkoutErrorResp "Razorpay order creation failed during checkout",
          orders := os, gatewayCalled := true }
      | .ok (some razorpayOrder) =>
        match createOrderRecord product env.customerEmail env.customerName
            razorpayOrder.id env.saveFails with
        | .error m =>
          { resp := checkoutErrorResp m, orders := os, gatewayCalled := true }
        | .ok order =>
          { resp := .success "Checkout successful" (some razorpayOrder),
            orders := os ++ [order], gatewayCalled := true }

/-- Environment of one `validatePayment` invocation (checkout.controller.ts
lines 116-145).  `schemaOk` is the verdict of `PaymentDetailsSchema.safeParse`
(zod schema not under `src/`); `hmacSha256Hex` is node `crypto`'s
`createHmac("sha256", key).update(msg).digest("hex")`, an external primitive
taken as an abstract key/message function; `keySecret` is
`RAZORPAY_KEY_SECRET`. -/
structure PaymentEnv where
  schemaOk : Bool
  razorpayOrderId : String
  razorpayPaymentId : String
  razorpaySignature : String
  keySecret : String
  hmacSha256Hex : String → String → String

/-- The signature recomputed by `validatePayment` (lines 131-134): HMAC of
`"\x7border_id\x7d|\x7bpayment_id\x7d"` under the shared secret. -/
def generatedSignature (env : PaymentEnv) : String :=
  env.hmacSha256Hex env.keySecret
    (env.razorpayOrderId ++ "|" ++ env.razorpayPaymentId)

/-- `validatePayment` (checkout.controller.ts lines 116-145): schema check,
then recompute the HMAC and compare it against the supplied signature. -/
def validatePayment (env : PaymentEnv) : ApiResp Unit :=
  if !env.schemaOk then
    .error "Payment Request validation failed"
  else
    if generatedSignature env ≠ env.razorpaySignature then
      .error "Invalid signature"
    else
      .success "Payment Validated" none

/-- `sendConfirmationEmailAsync` (checkout.controller.ts lines 318-330):
the email send's outcome is awaited inside the helper and any failure is
swallowed (logged only), so the helper itself never fails. -/
def sendConfirmationEmailAsync (emailSend : Except String Unit) :
    Except String Unit :=
  match emailSend with
  | .ok _ => .ok ()
  | .error _ => .ok ()

/-- The order-confirmation summary built by `confirmOrder`
(lines 187-191). -/
structure Summary where
  product : String
  amount : Nat
  orderNumber : String
deriving DecidableEq

/-- Environment of one `confirmOrder` invocation (lines 147-199).
`schemaOk` is the verdict of `OrderConfirmSchema.safeParse` (zod schema not
under `src/`); `catalog` is `ProductModel.findById` at confirm time (a later
read than the checkout-time snapshot); `emailSend` is the outcome the
confirmation-email dispatch would have. -/
structure ConfirmEnv where
  schemaOk : Bool
  customerName : String
  customerEmail : String
  productId : String
  razorpayOrderId : String
  razorpayPaymentId : String
  razorpaySignature : String
  catalog : String → Option DbProduct
  emailSend : Except String Unit

/-- `OrderModel.findOne(\x7borderId: id\x7d)`: first order document whose
`orderId` field equals `id`. -/
def findOneByOrderId (os : List Order) (id : String) : Option Order :=
  os.find? (fun o => o.orderId == id)

/-- Observable outcome of one `confirmOrder` invocation: the response and
whether a confirmation-email dispatch was started. -/
structure ConfirmOutcome where
  resp : ApiResp Summary
  emailAttempted : Bool

/-- `confirmOrder` (checkout.controller.ts lines 147-199): schema check,
product lookup, order lookup by gateway order id; on success fire the email
dispatch (not awaited, failures swallowed by `sendConfirmationEmailAsync`)
and answer with the summary built from the catalog product. -/
def confirmOrder (env : ConfirmEnv) (os : List Order) : ConfirmOutcome :=
  if !env.schemaOk then
    { resp := .error "Order Confirm Request validation failed",
      emailAttempted := false }
  else
    match env.catalog env.productId with
    | none => { resp := .error "Order not found", emailAttempted := false }
    | some product =>
      match findOneByOrderId os env.razorpayOrderId with
      | none => { resp := .error "Order not found", emailAttempted := false }
      | some _order =>
        match sendConfirmationEmailAsync env.emailSend with
        | _ =>
          { resp := .success "Order confirmed"
              (some { product := product.name, amount := product.price,
                      orderNumber := env.razorpayOrderId }),
            emailAttempted := true }

/-- The share message template of `generateShareUrl` (part_003 line 67),
before URI encoding. -/
def shareMessage (amount : Nat) (orderNumber : String) : String :=
  "I just bought " ++ toString amount ++
    " worth of absolutely nothing from buyNothing.com! 🎯 Order #" ++
    orderNumber ++ " - achieving peak minimalism! 💫"

/-- The property names an object literal inherits from `Object.prototype`:
a bracket lookup `obj[name]` on a plain object literal with any of these
names hits the prototype chain and yields a truthy non-string value (a
built-in function, or the prototype object itself for `__proto__`), so a
guard `obj[name] || fallback` does not fall back for them. -/
def objectPrototypeProps : List String :=
  ["constructor", "hasOwnProperty", "isPrototypeOf", "propertyIsEnumerable",
   "toLocaleString", "toString", "valueOf", "__proto__", "__defineGetter__",
   "__defineSetter__", "__lookupGetter__", "__lookupSetter__"]

/-- A JavaScript value observable as the result of `generateShareUrl`:
either a string, or the truthy non-string value inherited from
`Object.prototype` under the given property name (the declared TypeScript
return type `string` is not enforced at runtime). -/
inductive JsValue where
  | str (s : String)
  | protoProp (name : String)
deriving DecidableEq

/-- `generateShareUrl` (part_003 lines 63-83).  `enc` is JavaScript's
`encodeURIComponent`, an external primitive that can throw (e.g. on lone
surrogates), modelled as a partial function; the surrounding `try`/`catch`
turns any such throw into the empty string.  The lookup
`shareUrls[platform] || shareUrls.facebook` on the object literal is JS
property access: an own key (one of the five platforms) yields its URL, a
name inherited from `Object.prototype` yields that truthy inherited value
(so `||` does not fire and a non-string escapes), and any other name yields
`undefined`, falling back to the facebook template. -/
def generateShareUrl (enc : String → Option String) (baseUrl : String)
    (orderNumber platform : String) (order : Order) : JsValue :=
  match enc (shareMessage order.amount orderNumber),
        enc (baseUrl ++ "?ref=" ++ orderNumber) with
  | some message, some url =>
    if platform = "facebook" then
      .str ("https://www.facebook.com/sharer/sharer.php?u=" ++ url ++ "&quote=" ++ message)
    else if platform = "twitter" then
      .str ("https://twitter.com/intent/tweet?text=" ++ message ++ "&url=" ++ url ++
        "&hashtags=buynothing,minimalism,nothing")
    else if platform = "linkedin" then
      .str ("https://www.linkedin.com/sharing/share-offsite/?url=" ++ url ++
        "&summary=" ++ message)
    else if platform = "whatsapp" then
      .str ("https://wa.me/?text=" ++ message ++ "%20" ++ url)
    else if platform = "instagram" then
      .str ("https://www.instagram.com/?url=" ++ url)
    else if platform ∈ objectPrototypeProps then
      .protoProp platform
    else
      .str ("https://www.facebook.com/sharer/sharer.php?u=" ++ url ++ "&quote=" ++ message)
  | _, _ => .str ""

/-- The in-place mutation of the found order performed by `handleShare`
(part_003 lines 30-31): set the flag and push one share event. -/
def sharedUpdate (o : Order) (platform : String) (now : Nat) : Order :=
  { o with sharedOnSocial := true,
           socialShares := o.socialShares ++ [{ platform := platform, sharedAt := now }] }

/-- Persisting `order.save()` into the collection: replace the first
document with the matching `orderId` (the one `findOne` returned) by its
updated value. -/
def saveFirstByOrderId (os : List Order) (id : String) (updated : Order) :
    List Order :=
  match os with
  | [] => []
  | o :: rest =>
    if o.orderId == id then updated :: rest
    else o :: saveFirstByOrderId rest id updated

/-- Environment of one `handleShare` invocation (part_003 lines 11-40).
`schemaOk` is the verdict of `ShareSchema.safeParse` (zod schema not under
`src/`); `enc` and `baseUrl` feed `generateShareUrl`; `now` is the
`new Date()` timestamp; `saveFails` is whether `order.save()` throws. -/
structure ShareEnv where
  schemaOk : Bool
  orderNumber : String
  platform : String
  enc : String → Option String
  baseUrl : String
  now : Nat
  saveFails : Bool

/-- Observable outcome of one `handleShare` invocation. -/
structure ShareOutcome where
  resp : ApiResp JsValue
  orders : List Order

/-- `handleShare` (part_003 lines 11-40): schema check, find the order,
mutate and save it, then generate the share URL and answer with success; a
throwing `save` is caught and answered with `Failed to share`, leaving the
collection unchanged. -/
def handleShare (env : ShareEnv) (os : List Order) : ShareOutcome :=
  if !env.schemaOk then
    { resp := .error "Failed to share", orders := os }
  else
    match findOneByOrderId os env.orderNumber with
    | none => { resp := .error "Order not found", orders := os }
    | some order =>
      let updated := sharedUpdate order env.platform env.now
      if env.saveFails then
        { resp := .error "Failed to share", orders := os }
      else
        { resp := .success ("Successfully shared on " ++ env.platform)
            (some (generateShareUrl env.enc env.baseUrl env.orderNumber
              env.platform updated)),
          orders := saveFirstByOrderId os env.orderNumber updated }

/-! ## Helper lemmas -/

theorem checkoutErrorResp_ne_success (m s : String) (d : Option RazorpayOrder) :
    checkoutErrorResp m ≠ ApiResp.success s d := by
  unfold checkoutErrorResp
  split
  · simp
  · split <;> simp

theorem validateAndFetchProduct_error_of_bad (isValidObjectId : String → Bool)
    (catalog : String → Option DbProduct) (productId : String)
    (h : isValidObjectId productId = false ∨ catalog productId = none) :
    ∃ m, validateAndFetchProduct isValidObjectId catalog productId =
      Except.error m := by
  unfold validateAndFetchProduct
  rcases h with h | h
  · exact ⟨"Invalid product ID format", by simp [h]⟩
  · cases hvi : isValidObjectId productId
    · exact ⟨"Invalid product ID format", by simp⟩
    · exact ⟨"Product not found", by simp [h]⟩

/-! ## Concrete instances used by witnesses -/

def prodW : DbProduct :=
  { id := "p1", name := "Nothing", price := 500, category := "novelty",
    inventory := 10, isActive := true }

def rzpW : RazorpayOrder :=
  { id := "order_rzp1", amount := 500, currency := "INR", receipt := "r1" }

def envW : CheckoutEnv :=
  { schemaOk := true, productId := "p1", customerEmail := "a@b.com",
    customerName := "A", receipt := "r1",
    isValidObjectId := fun _ => true,
    catalog := fun s => if s = "p1" then some prodW else none,
    gateway := .returns rzpW, saveFails := false }

def envW2 : CheckoutEnv := { envW with gateway := .throws }

def envW3 : CheckoutEnv := { envW with catalog := fun _ => none }

/-! ## Claims about `handleCheckout` -/

/-- C1: for every valid checkout request, if `handleCheckout` returns a
successful response then exactly one Order document exists whose `orderId`
equals the gateway order id contained in the returned response, with status
`confirmed` and payment status `pending` (assuming the gateway id is fresh,
i.e. no pre-existing document carries it). -/
theorem checkout_success_unique_order (env : CheckoutEnv) (os : List Order)
    (msg : String) (rzp : RazorpayOrder)
    (hfresh : os.filter (fun o => o.orderId == rzp.id) = [])
    (hsucc : (handleCheckout env os).resp = ApiResp.success msg (some rzp)) :
    ∃ o, (handleCheckout env os).orders.filter (fun x => x.orderId == rzp.id) = [o]
      ∧ o.orderId = rzp.id ∧ o.status = "confirmed" ∧ o.paymentStatus = "pending" := by
  unfold handleCheckout at hsucc ⊢
  revert hsucc
  cases hok : env.schemaOk with
  | false =>
    intro hsucc
    exact ApiResp.noConfusion hsucc
  | true =>
    cases hv : validateAndFetchProduct env.isValidObjectId env.catalog env.productId with
    | error m =>
      intro hsucc
      exact absurd hsucc (checkoutErrorResp_ne_success m msg (some rzp))
    | ok product =>
      cases hg : env.gateway with
      | throws =>
        intro hsucc
        exact absurd hsucc (checkoutErrorResp_ne_success
          "Failed to create payment order" msg (some rzp))
      | returnsNull =>
        intro hsucc
        exact absurd hsucc (checkoutErrorResp_ne_success
          "Razorpay order creation failed during checkout" msg (some rzp))
      | returns r =>
        cases hs : env.saveFails with
        | true =>
          intro hsucc
          exact absurd hsucc (checkoutErrorResp_ne_success
            "Failed to create order record" msg (some rzp))
        | false =>
          intro hsucc
          have hsucc2 : ApiResp.success "Checkout successful" (some r) =
              ApiResp.success msg (some rzp) := hsucc
          simp only [ApiResp.success.injEq, Option.some.injEq] at hsucc2
          obtain ⟨hmsg, hr⟩ := hsucc2
          subst hr
          show ∃ o, List.filter (fun x => x.orderId == r.id)
              (os ++ [newOrderDoc product env.customerEmail env.customerName r.id]) = [o]
            ∧ o.orderId = r.id ∧ o.status = "confirmed" ∧ o.paymentStatus = "pending"
          refine ⟨newOrderDoc product env.customerEmail env.customerName r.id,
            ?_, rfl, rfl, rfl⟩
          rw [List.filter_append, hfresh]
          simp [newOrderDoc]

/-- Witness for C1: a fully concrete checkout that succeeds and leaves
exactly one confirmed/pending order carrying the gateway order id. -/
theorem checkout_success_unique_order_witness :
    ∃ o, (handleCheckout envW []).orders.filter (fun x => x.orderId == rzpW.id) = [o]
      ∧ o.orderId = rzpW.id ∧ o.status = "confirmed" ∧ o.paymentStatus = "pending" :=
  checkout_success_unique_order envW [] "Checkout successful" rzpW rfl rfl

/-- C2: for every checkout request in which the payment-gateway call fails
(throws or yields no order), `handleCheckout` aborts the transaction and the
order store is unchanged. -/
theorem checkout_gateway_failure_no_order (env : CheckoutEnv) (os : List Order)
    (h : ∀ o : RazorpayOrder, env.gateway ≠ GatewayOutcome.returns o) :
    (handleCheckout env os).orders = os := by
  unfold handleCheckout
  cases hok : env.schemaOk with
  | false => rfl
  | true =>
    cases hv : validateAndFetchProduct env.isValidObjectId env.catalog env.productId with
    | error m => rfl
    | ok product =>
      cases hg : env.gateway with
      | throws => rfl
      | returnsNull => rfl
      | returns r => exact absurd hg (h r)

/-- Witness for C2: the concrete checkout whose gateway call throws leaves
the (empty) order store empty. -/
theorem checkout_gateway_failure_no_order_witness :
    (handleCheckout envW2 []).orders = [] :=
  checkout_gateway_failure_no_order envW2 []
    (fun _ h => GatewayOutcome.noConfusion h)

/-- C3: for every checkout request whose product id is malformed or refers
to no existing product, `handleCheckout` fails without invoking the payment
gateway, and no Order is persisted. -/
theorem checkout_bad_product_no_gateway (env : CheckoutEnv) (os : List Order)
    (h : env.isValidObjectId env.productId = false ∨
         env.catalog env.productId = none) :
    (handleCheckout env os).gatewayCalled = false ∧
    (handleCheckout env os).orders = os := by
  obtain ⟨m, hv⟩ :=
    validateAndFetchProduct_error_of_bad env.isValidObjectId env.catalog
      env.productId h
  unfold handleCheckout
  cases hok : env.schemaOk with
  | false => exact ⟨rfl, rfl⟩
  | true =>
    rw [hv]
    exact ⟨rfl, rfl⟩

/-- Witness for C3: a checkout for a product id that the catalog does not
contain makes no gateway call and leaves the store unchanged. -/
theorem checkout_bad_product_no_gateway_witness :
    (handleCheckout envW3 []).gatewayCalled = false ∧
    (handleCheckout envW3 []).orders = [] :=
  checkout_bad_product_no_gateway envW3 [] (Or.inr rfl)

/-- C5 counterexample: on the concrete checkout whose gateway call throws,
the response is the generic `Checkout process failed`, not the
gateway-specific `Payment service unavailable` — the thrown message
`Failed to create payment order` contains neither `Product` nor `Razorpay`,
so the claim as stated is false. -/
theorem checkout_gateway_throw_not_gateway_error :
    (handleCheckout envW2 []).resp = ApiResp.error "Checkout process failed" ∧
    (ApiResp.error "Checkout process failed" : ApiResp RazorpayOrder) ≠
      ApiResp.error "Payment service unavailable" :=
  ⟨by decide, by decide⟩

/-- C5 (amended): past product validation, a gateway call that returns no
usable order id yields the gateway-specific `Payment service unavailable`
response, while a gateway call that throws yields the generic
`Checkout process failed` response (its re-thrown message does not contain
`Razorpay`). -/
theorem checkout_gateway_error_response_split (env : CheckoutEnv)
    (os : List Order) (p : DbProduct)
    (hok : env.schemaOk = true)
    (hvid : env.isValidObjectId env.productId = true)
    (hcat : env.catalog env.productId = some p) :
    (env.gateway = GatewayOutcome.returnsNull →
      (handleCheckout env os).resp = ApiResp.error "Payment service unavailable") ∧
    (env.gateway = GatewayOutcome.throws →
      (handleCheckout env os).resp = ApiResp.error "Checkout process failed") := by
  unfold handleCheckout
  rw [hok]
  have hv : validateAndFetchProduct env.isValidObjectId env.catalog env.productId =
      Except.ok { id := p.id, name := p.name, description := none,
                  price := p.price, category := p.category } := by
    unfold validateAndFetchProduct
    rw [hvid, hcat]
    simp
  rw [hv]
  constructor
  · intro hg
    rw [hg]
    show checkoutErrorResp "Razorpay order creation failed during checkout" =
      ApiResp.error "Payment service unavailable"
    decide
  · intro hg
    rw [hg]
    show checkoutErrorResp "Failed to create payment order" =
      ApiResp.error "Checkout process failed"
    decide

/-- Witness for the amended C5: the concrete throwing-gateway checkout
answers with the generic error message. -/
theorem checkout_gateway_error_response_split_witness :
    (handleCheckout envW2 []).resp = ApiResp.error "Checkout process failed" :=
  (checkout_gateway_error_response_split envW2 [] prodW rfl rfl rfl).2 rfl

/-! ## Claims about `validatePayment` -/

theorem stringMk_single_byte_ne (pre post : List Char) (b b2 : Char)
    (h : b ≠ b2) :
    String.mk (pre ++ b :: post) ≠ String.mk (pre ++ b2 :: post) := by
  intro he
  have h2 : pre ++ b :: post = pre ++ b2 :: post := congrArg String.data he
  have h3 := List.append_cancel_left h2
  injection h3 with hb _
  exact h hb

def payEnvW : PaymentEnv :=
  { schemaOk := true, razorpayOrderId := "o1", razorpayPaymentId := "p1",
    razorpaySignature := "k:o1|p1", keySecret := "k",
    hmacSha256Hex := fun key m => key ++ ":" ++ m }

/-- C4: with a well-formed request body, `validatePayment` succeeds if and
only if the supplied signature equals the hex HMAC-SHA256 of
`"\x7border_id\x7d|\x7bpayment_id\x7d"` under the gateway secret; any differing
signature — in particular one differing from the genuine one in a single
byte — fails with the `Invalid signature` error. -/
theorem validatePayment_signature_iff (env : PaymentEnv)
    (h : env.schemaOk = true) :
    (validatePayment env = ApiResp.success "Payment Validated" none ↔
      env.razorpaySignature = generatedSignature env) ∧
    (env.razorpaySignature ≠ generatedSignature env →
      validatePayment env = ApiResp.error "Invalid signature") ∧
    (∀ (pre post : List Char) (b b2 : Char), b ≠ b2 →
      env.razorpaySignature = String.mk (pre ++ b :: post) →
      generatedSignature env = String.mk (pre ++ b2 :: post) →
      validatePayment env = ApiResp.error "Invalid signature") := by
  have hred : validatePayment env =
      if generatedSignature env ≠ env.razorpaySignature then
        ApiResp.error "Invalid signature"
      else ApiResp.success "Payment Validated" none := by
    unfold validatePayment
    rw [h]
    rfl
  by_cases hsig : generatedSignature env = env.razorpaySignature
  · rw [hred, if_neg (not_not_intro hsig)]
    refine ⟨⟨fun _ => hsig.symm, fun _ => rfl⟩,
      fun hne => absurd hsig.symm hne, ?_⟩
    intro pre post b b2 hne hs hg
    exfalso
    apply stringMk_single_byte_ne pre post b b2 hne
    rw [← hs, ← hg, hsig]
  · rw [hred, if_pos hsig]
    exact ⟨⟨fun he => ApiResp.noConfusion he, fun he => absurd he.symm hsig⟩,
      fun _ => rfl, fun _ _ _ _ _ _ _ => rfl⟩

/-- Witness for C4: validating the freshly computed HMAC of a concrete
order/payment pair succeeds. -/
theorem validatePayment_signature_iff_witness :
    validatePayment payEnvW = ApiResp.success "Payment Validated" none :=
  (validatePayment_signature_iff payEnvW rfl).1.mpr (by decide)

/-! ## Claims about `confirmOrder` -/

def orderW : Order :=
  { orderId := "order_rzp1", productId := "p1", productName := "Nothing",
    productCategory := "novelty", customerEmail := "a@b.com",
    customerName := "A", amount := 500, status := "confirmed",
    paymentStatus := "pending", sharedOnSocial := false, socialShares := [] }

def confEnvW : ConfirmEnv :=
  { schemaOk := true, customerName := "A", customerEmail := "a@b.com",
    productId := "p1", razorpayOrderId := "order_rzp1",
    razorpayPaymentId := "pay1", razorpaySignature := "sig",
    catalog := fun s => if s = "p1" then some prodW else none,
    emailSend := .ok () }

/-- C7: with a well-formed request body, `confirmOrder` fails with the
not-found error if either the product or the Order looked up by the gateway
order id is missing, and otherwise succeeds with the summary of product
name, amount, and gateway order id as order number. -/
theorem confirmOrder_lookup_spec (env : ConfirmEnv) (os : List Order)
    (h : env.schemaOk = true) :
    ((env.catalog env.productId = none ∨
        findOneByOrderId os env.razorpayOrderId = none) →
      (confirmOrder env os).resp = ApiResp.error "Order not found") ∧
    (∀ p o, env.catalog env.productId = some p →
      findOneByOrderId os env.razorpayOrderId = some o →
      (confirmOrder env os).resp = ApiResp.success "Order confirmed"
        (some { product := p.name, amount := p.price,
                orderNumber := env.razorpayOrderId })) := by
  unfold confirmOrder
  rw [h]
  constructor
  · intro h1
    rcases h1 with hc | ho
    · rw [hc]; rfl
    · cases hc : env.catalog env.productId with
      | none => rfl
      | some p => rw [ho]; rfl
  · intro p o hp ho
    rw [hp, ho]; rfl

/-- Witness for C7: a concrete confirm request whose product and order both
exist answers with the summary. -/
theorem confirmOrder_lookup_spec_witness :
    (confirmOrder confEnvW [orderW]).resp = ApiResp.success "Order confirmed"
      (some { product := "Nothing", amount := 500, orderNumber := "order_rzp1" }) :=
  (confirmOrder_lookup_spec confEnvW [orderW] rfl).2 prodW orderW rfl rfl

/-- C8: when both lookups succeed, the email dispatch helper swallows every
failure, and the response of `confirmOrder` is the same successful summary
whatever the email outcome is (the dispatch is still attempted). -/
theorem confirmOrder_email_failure_no_effect (env : ConfirmEnv)
    (os : List Order) (p : DbProduct) (o : Order) (h : env.schemaOk = true)
    (hp : env.catalog env.productId = some p)
    (ho : findOneByOrderId os env.razorpayOrderId = some o) :
    (∀ e : Except String Unit, sendConfirmationEmailAsync e = Except.ok ()) ∧
    (∀ e1 e2 : Except String Unit,
      (confirmOrder { env with emailSend := e1 } os).resp =
      (confirmOrder { env with emailSend := e2 } os).resp) ∧
    (confirmOrder { env with emailSend := Except.error "mail outage" } os).resp =
      ApiResp.success "Order confirmed"
        (some { product := p.name, amount := p.price,
                orderNumber := env.razorpayOrderId }) ∧
    (confirmOrder { env with emailSend := Except.error "mail outage" } os).emailAttempted
      = true := by
  have key : ∀ e : Except String Unit,
      (confirmOrder { env with emailSend := e } os).resp =
        ApiResp.success "Order confirmed"
          (some { product := p.name, amount := p.price,
                  orderNumber := env.razorpayOrderId }) ∧
      (confirmOrder { env with emailSend := e } os).emailAttempted = true := by
    intro e
    unfold confirmOrder
    dsimp only
    rw [h, hp, ho]
    exact ⟨rfl, rfl⟩
  refine ⟨?_, ?_, (key _).1, (key _).2⟩
  · intro e
    cases e <;> rfl
  · intro e1 e2
    rw [(key e1).1, (key e2).1]

/-- Witness for C8: on the concrete confirm request, a failing email send
yields the same successful summary as a succeeding one. -/
theorem confirmOrder_email_failure_no_effect_witness :
    (confirmOrder { confEnvW with emailSend := Except.error "mail outage" } [orderW]).resp =
      ApiResp.success "Order confirmed"
        (some { product := "Nothing", amount := 500, orderNumber := "order_rzp1" }) :=
  (confirmOrder_email_failure_no_effect confEnvW [orderW] prodW orderW
    rfl rfl rfl).2.2.1

/-- Catalog state at confirm time for the C9 witness: the product's price
was raised to 700 after the order (which stored amount 500) was created. -/
def prodW700 : DbProduct := { prodW with price := 700 }

def confEnvW9 : ConfirmEnv :=
  { confEnvW with catalog := fun s => if s = "p1" then some prodW700 else none }

/-- C9: for every successful confirm request, the summary's amount is the
product's price as read from the catalog at confirm time — whatever amount
the persisted Order document stores. -/
theorem confirmOrder_amount_from_catalog (env : ConfirmEnv) (os : List Order)
    (p : DbProduct) (o : Order) (h : env.schemaOk = true)
    (hp : env.catalog env.productId = some p)
    (ho : findOneByOrderId os env.razorpayOrderId = some o) :
    (confirmOrder env os).resp = ApiResp.success "Order confirmed"
      (some { product := p.name, amount := p.price,
              orderNumber := env.razorpayOrderId }) := by
  unfold confirmOrder
  rw [h, hp, ho]
  rfl

/-- Witness for C9: the persisted order stores amount 500, the catalog now
prices the product at 700, and the confirm summary reports 700. -/
theorem confirmOrder_amount_from_catalog_witness :
    (confirmOrder confEnvW9 [orderW]).resp = ApiResp.success "Order confirmed"
      (some { product := "Nothing", amount := 700, orderNumber := "order_rzp1" }) ∧
    orderW.amount = 500 :=
  ⟨confirmOrder_amount_from_catalog confEnvW9 [orderW] prodW700 orderW
    rfl rfl rfl, rfl⟩

/-! ## Claims about the share controller -/

/-- C6 counterexample: `toString` is outside the supported platform set,
yet the lookup hits the `Object.prototype` chain, so the program returns
the truthy inherited `toString` function — not the facebook URL it returns
for platform `facebook` with the same other inputs.  The claim as stated
is therefore false at this concrete input. -/
theorem generateShareUrl_prototype_chain_hit :
    "toString" ∉ (["facebook", "twitter", "linkedin", "whatsapp",
      "instagram"] : List String) ∧
    generateShareUrl (fun s => some s) "https://buynothing.com" "order_rzp1"
      "toString" orderW ≠
    generateShareUrl (fun s => some s) "https://buynothing.com" "order_rzp1"
      "facebook" orderW :=
  ⟨by decide, by decide⟩

/-- C6 (amended): share-URL generation for a platform outside the supported
set *and* outside the property names inherited from `Object.prototype`
returns exactly the facebook URL for the same inputs; an inherited property
name instead escapes as the truthy inherited value. -/
theorem generateShareUrl_unknown_nonproto_platform (enc : String → Option String)
    (baseUrl orderNumber platform : String) (order : Order)
    (h : platform ∉ (["facebook", "twitter", "linkedin", "whatsapp",
      "instagram"] : List String))
    (hp : platform ∉ objectPrototypeProps) :
    generateShareUrl enc baseUrl orderNumber platform order =
    generateShareUrl enc baseUrl orderNumber "facebook" order := by
  simp only [List.mem_cons, List.not_mem_nil, or_false, not_or] at h
  obtain ⟨h1, h2, h3, h4, h5⟩ := h
  unfold generateShareUrl
  cases enc (shareMessage order.amount orderNumber) <;>
    cases enc (baseUrl ++ "?ref=" ++ orderNumber) <;>
    simp [h1, h2, h3, h4, h5, hp]

/-- Witness for the amended C6: the unsupported, non-prototype platform
`myspace` gets the facebook share URL. -/
theorem generateShareUrl_unknown_nonproto_platform_witness :
    generateShareUrl (fun s => some s) "https://buynothing.com" "order_rzp1"
      "myspace" orderW =
    generateShareUrl (fun s => some s) "https://buynothing.com" "order_rzp1"
      "facebook" orderW :=
  generateShareUrl_unknown_nonproto_platform (fun s => some s)
    "https://buynothing.com" "order_rzp1" "myspace" orderW
    (by decide) (by decide)

def shareEnvW : ShareEnv :=
  { schemaOk := true, orderNumber := "order_rzp1", platform := "myspace",
    enc := fun _ => none, baseUrl := "https://buynothing.com",
    now := 1700000000, saveFails := false }

/-- C10: for every share request whose order exists (and whose save
persists), `handleShare` stores the order with the social flag set and
exactly one new `\x7bplatform, sharedAt\x7d` entry appended, and answers with a
success response carrying whatever `generateShareUrl` produced for the
updated order — including the empty string value when URL generation
fails. -/
theorem handleShare_order_exists (env : ShareEnv) (os : List Order)
    (o : Order) (hok : env.schemaOk = true)
    (hfound : findOneByOrderId os env.orderNumber = some o)
    (hsave : env.saveFails = false) :
    (sharedUpdate o env.platform env.now).sharedOnSocial = true ∧
    (sharedUpdate o env.platform env.now).socialShares =
      o.socialShares ++ [{ platform := env.platform, sharedAt := env.now }] ∧
    (handleShare env os).orders =
      saveFirstByOrderId os env.orderNumber (sharedUpdate o env.platform env.now) ∧
    (handleShare env os).resp =
      ApiResp.success ("Successfully shared on " ++ env.platform)
        (some (generateShareUrl env.enc env.baseUrl env.orderNumber
          env.platform (sharedUpdate o env.platform env.now))) := by
  refine ⟨rfl, rfl, ?_, ?_⟩ <;>
  · unfold handleShare
    rw [hok, hfound, hsave]
    rfl

/-- Witness for C10: a concrete share request on an existing order whose
URI encoder always throws — the order is stored flagged with one appended
share event and the response is a success carrying the empty URL. -/
theorem handleShare_order_exists_witness :
    (sharedUpdate orderW "myspace" 1700000000).sharedOnSocial = true ∧
    (sharedUpdate orderW "myspace" 1700000000).socialShares =
      orderW.socialShares ++ [{ platform := "myspace", sharedAt := 1700000000 }] ∧
    (handleShare shareEnvW [orderW]).orders =
      saveFirstByOrderId [orderW] "order_rzp1"
        (sharedUpdate orderW "myspace" 1700000000) ∧
    (handleShare shareEnvW [orderW]).resp =
      ApiResp.success "Successfully shared on myspace" (some (JsValue.str "")) :=
  handleShare_order_exists shareEnvW [orderW] orderW rfl rfl rfl

end NothingServer
